import Mathlib

/-!
Verification of the Asian-range liquidity-sweep trading engine
(`mt5_integration/services/signal_detection_service.py`,
`mt5_integration/services/auto_trading_service.py`,
`mt5_integration/services/mt5_service.py`).

Shallow embedding: prices, times and sizes are rationals; the Django ORM
rows touched by the engine (LiquiditySweep, TradeSignal, TradeExecution,
TradeManagement) are lists held in a `Db` record, newest first, matching
the `order_by(-...).first()` access pattern of the source; the MT5 /
broker ports are an `Env` record whose `Option`/`Except` fields model the
`None` / `success: False` / raised-exception outcomes of each call.
Python `round(x, d)` is modelled by `roundTo d`.
-/

namespace SweepTrader

/-- Session states, `TradingSession.current_state`. -/
inductive SessionState
  | IDLE | SWEPT | CONFIRMED | ARMED | IN_TRADE | COOLDOWN
deriving DecidableEq, Repr

/-- Sweep direction strings `'UP'` / `'DOWN'`. -/
inductive SweepDir
  | UP | DOWN
deriving DecidableEq, Repr

/-- Asian-range grade strings from `MT5Service._grade_range`. -/
inductive RangeGrade
  | TIGHT | NORMAL | WIDE
deriving DecidableEq, Repr

/-- Signal side `'BUY'` / `'SELL'`. -/
inductive SignalType
  | BUY | SELL
deriving DecidableEq, Repr

/-- One OHLC bar of a pandas DataFrame row. -/
structure Bar where
  opn : ℚ
  high : ℚ
  low : ℚ
  close : ℚ
deriving DecidableEq, Repr

/-- Result of `MT5Service.get_current_price` (bid/ask of a tick). -/
structure Tick where
  bid : ℚ
  ask : ℚ
deriving DecidableEq, Repr

/-- Successful payload of `MT5Service.get_asian_session_data`. -/
structure AsianData where
  high : ℚ
  low : ℚ
  midpoint : ℚ
  range_pips : ℚ
  grade : RangeGrade
deriving DecidableEq, Repr

/-- Payload of `MT5Service.get_account_info`. -/
structure AccountInfo where
  balance : ℚ
  equity : ℚ
deriving DecidableEq, Repr

/-- Fields of `mt5.symbol_info` read by the sizing code. -/
structure SymbolInfo where
  point : ℚ
  trade_tick_value : ℚ
  trade_contract_size : ℚ
deriving DecidableEq, Repr

/-- One element of `TradeService.get_open_positions`'s `positions` list. -/
structure PositionInfo where
  ticket : ℕ
  volume : ℚ
  tp : Option ℚ
  profit : Option ℚ
deriving DecidableEq, Repr

/-- The `TradingSession` row fields the engine reads and writes. -/
structure Session where
  current_state : SessionState
  sweep_direction : Option SweepDir
  sweep_threshold : Option ℚ
  confirmation_time : Option ℚ
  asian_range_high : ℚ
  asian_range_low : ℚ
  asian_range_midpoint : ℚ
  asian_range_grade : Option RangeGrade
deriving DecidableEq, Repr

/-- A `LiquiditySweep` row. -/
structure SweepRec where
  sweep_direction : SweepDir
  sweep_price : ℚ
  sweep_threshold : ℚ
deriving DecidableEq, Repr

/-- A `TradeSignal` row.  Note the model field names are `take_profit_1`
and `take_profit_2` (models/trade_signal.py); there is no `take_profit1`
attribute. -/
structure SignalRec where
  signal_type : SignalType
  entry_price : ℚ
  stop_loss : ℚ
  take_profit_1 : ℚ
  take_profit_2 : ℚ
  volume : ℚ
  risk_percentage : ℚ
deriving DecidableEq, Repr

/-- A `TradeExecution` row (fields used by the engine). -/
structure ExecRec where
  order_id : ℕ
  profit : Option ℚ
deriving DecidableEq, Repr

/-- `TradeManagement.action_type` values. -/
inductive ActionType
  | MOVE_BE | TRAILING | PARTIAL_TP | CLOSE_SESSION_END | CLOSE_NEWS | CLOSE_TIMEOUT
deriving DecidableEq, Repr

/-- A `TradeManagement` row. -/
structure MgmtAction where
  action_type : ActionType
  old_value : ℚ
  new_value : ℚ
deriving DecidableEq, Repr

/-- The persisted rows belonging to the current session, newest first
(mirrors `order_by('-sweep_time'/'-created_at'/'-execution_time')`;
one live signal at a time, so the per-signal filters read the head). -/
structure Db where
  sweeps : List SweepRec
  signals : List SignalRec
  executions : List ExecRec
  mgmt : List MgmtAction
deriving DecidableEq, Repr

/-- Service state: the current session row plus the persisted rows. -/
structure St where
  session : Session
  db : Db
deriving DecidableEq, Repr

/-- The external world during one pass: each port call's outcome.
`none` models a `None`/`success: False` reply; `Except.error` models a
failed call (message surfaced) or a raised-and-swallowed exception. -/
structure Env where
  asian : Option AsianData
  tick : Option Tick
  m5 : Option (List Bar)
  m1 : Option (List Bar)
  d1_closes : Option (List ℚ)
  h4_closes : Option (List ℚ)
  newsQuery : Except Unit Bool
  account : Option AccountInfo
  symbol_info : Option SymbolInfo
  orderResult : Except String ℕ
  execPersistOk : Bool
  positions : Except String (List PositionInfo)
  now : ℚ
deriving Repr

/-- Python `round(x, d)` on the rationals arising here (no float ties). -/
def roundTo (d : ℕ) (x : ℚ) : ℚ :=
  ((round (x * (10 : ℚ) ^ d) : ℤ) : ℚ) / (10 : ℚ) ^ d

/-- `SignalDetectionService._calculate_sweep_threshold`:
`round(max(10, range_pips * 0.09), 1)`. -/
def calculate_sweep_threshold (asian : AsianData) : ℚ :=
  roundTo 1 (max 10 (asian.range_pips * (9 / 100)))

/-- The direction test of `detect_sweep`: UP if bid is above
`high + threshold_price`, else DOWN if below `low - threshold_price`. -/
def sweepDirectionOf (asian : AsianData) (bid : ℚ) : Option SweepDir :=
  let threshold_price := calculate_sweep_threshold asian * (1 / 10)
  if bid > asian.high + threshold_price then some .UP
  else if bid < asian.low - threshold_price then some .DOWN
  else none

/-- Result dict of `detect_sweep`. -/
structure DetectResult where
  success : Bool
  sweep_detected : Bool := false
  direction : Option SweepDir := none
  price : Option ℚ := none
  threshold : Option ℚ := none
  session_state : Option SessionState := none
  reason : Option String := none
  error : Option String := none
deriving DecidableEq, Repr

/-- `SignalDetectionService.detect_sweep`. -/
def detect_sweep (st : St) (env : Env) : DetectResult × St :=
  if st.session.current_state ≠ .IDLE then
    ({ success := false, error := some "Invalid state" }, st)
  else
    match env.asian with
    | none => ({ success := false, error := some "Failed to get Asian range data" }, st)
    | some asian =>
      match env.tick with
      | none => ({ success := false, error := some "Failed to get current price" }, st)
      | some tick =>
        let current_price := tick.bid
        let sweep_threshold_pips := calculate_sweep_threshold asian
        match sweepDirectionOf asian current_price with
        | some d =>
          if (match st.session.sweep_direction with
              | some d0 => decide (d0 ≠ d)
              | none => false) then
            ({ success := false, sweep_detected := true, direction := some d,
               price := some current_price, threshold := some sweep_threshold_pips,
               session_state := some .COOLDOWN,
               reason := some "Both sides swept; entering cooldown" },
             { st with session := { st.session with current_state := .COOLDOWN } })
          else
            let sweep : SweepRec :=
              { sweep_direction := d, sweep_price := current_price,
                sweep_threshold := sweep_threshold_pips }
            ({ success := true, sweep_detected := true, direction := some d,
               price := some current_price, threshold := some sweep_threshold_pips,
               session_state := some .SWEPT },
             { session := { st.session with
                              current_state := .SWEPT,
                              sweep_direction := some d,
                              sweep_threshold := some sweep_threshold_pips },
               db := { st.db with sweeps := sweep :: st.db.sweeps } })
        | none =>
          ({ success := true, sweep_detected := false,
             threshold := some sweep_threshold_pips }, st)

/-- True-range series of a bar list, mirroring
`tr = concat(high-low, |high-close.shift()|, |low-close.shift()|).max(axis=1)`
(the first row, whose shifted close is NaN, reduces to `high - low`). -/
def trueRangeList (prevClose : Option ℚ) : List Bar → List ℚ
  | [] => []
  | b :: rest =>
    (match prevClose with
     | none => b.high - b.low
     | some pc => max (b.high - b.low) (max |b.high - pc| |b.low - pc|)) ::
    trueRangeList (some b.close) rest

/-- `SignalDetectionService._calculate_atr`: default `0.001` when fewer
than `period` bars; otherwise `tr.rolling(period).mean().iloc[-1]`,
the mean of the last `period` true ranges. -/
def calculate_atr (bars : List Bar) (period : ℕ) : ℚ :=
  if bars.length < period then 1 / 1000
  else
    let trs := trueRangeList none bars
    (trs.drop (trs.length - period)).sum / (period : ℚ)

/-- Last two elements of a list, in order (second-last, last). -/
def lastTwo : List ℚ → Option (ℚ × ℚ)
  | [a, b] => some (a, b)
  | _ :: b :: c :: rest => lastTwo (b :: c :: rest)
  | _ => none

/-- `SignalDetectionService._detect_choch`: fewer than 3 bars → `false`;
after an UP sweep compare the last two of the last 5 highs, after a DOWN
sweep the last two of the last 5 lows. -/
def detect_choch (bars : List Bar) (sweep_direction : SweepDir) : Bool :=
  if bars.length < 3 then false
  else
    match sweep_direction with
    | .UP =>
      let recent_highs := (bars.map (fun b => b.high)).drop (bars.length - 5)
      match lastTwo recent_highs with
      | some (prev, last) => decide (last < prev)
      | none => false
    | .DOWN =>
      let recent_lows := (bars.map (fun b => b.low)).drop (bars.length - 5)
      match lastTwo recent_lows with
      | some (prev, last) => decide (last > prev)
      | none => false

/-- Result dict of `confirm_reversal`. -/
structure ConfirmResult where
  success : Bool
  confirmed : Bool := false
  reason : Option String := none
  error : Option String := none
deriving DecidableEq, Repr

/-- `SignalDetectionService.confirm_reversal`.  The widening M5 fetch
fallback is modelled by `env.m5` holding the final fetch outcome.  Note
the M1 CHOCH gate is only entered when the M1 fetch returned a nonempty
series (`if m1_data is not None and len(m1_data) > 0`). -/
def confirm_reversal (st : St) (env : Env) : ConfirmResult × St :=
  if st.session.current_state ≠ .SWEPT then
    ({ success := false, error := some "Invalid state for reversal confirmation" }, st)
  else
    match env.m5 with
    | none => ({ success := false, error := some "No M5 data available" }, st)
    | some m5 =>
      match m5.getLast? with
      | none => ({ success := false, error := some "No M5 data available" }, st)
      | some latest_candle =>
        match env.asian with
        | none => ({ success := false, error := some "Failed to get Asian range data" }, st)
        | some asian =>
          let latest_close := latest_candle.close
          if ¬ (asian.low ≤ latest_close ∧ latest_close ≤ asian.high) then
            ({ success := true, confirmed := false,
               reason := some "Price not back inside Asian range" }, st)
          else
            let body_size := |latest_candle.close - latest_candle.opn|
            let atr := calculate_atr m5 14
            let displacement_threshold := atr * (13 / 10)
            if body_size < displacement_threshold then
              ({ success := true, confirmed := false,
                 reason := some "Insufficient displacement" }, st)
            else
              let dir : SweepDir :=
                if st.session.sweep_direction = some .UP then .UP else .DOWN
              let chochGate : Option Bool :=
                match env.m1 with
                | some m1bars =>
                  if m1bars.length > 0 then some (detect_choch m1bars dir) else none
                | none => none
              match chochGate with
              | some false =>
                ({ success := true, confirmed := false,
                   reason := some "M1 CHOCH not detected" }, st)
              | _ =>
                ({ success := true, confirmed := true },
                 { st with session := { st.session with
                     current_state := .CONFIRMED,
                     confirmation_time := some env.now } })

/-- HTF bias labels of `check_confluence._bias`. -/
inductive Bias
  | BULL | BEAR | RANGE | UNKNOWN
deriving DecidableEq, Repr

/-- `check_confluence`'s inner `_bias`: UNKNOWN when no frame or fewer
than 20 closes; else compare the last close against the 20-period SMA
(`close.rolling(20).mean().iloc[-1]`, the mean of the last 20 closes). -/
def bias_of (closes : Option (List ℚ)) : Bias :=
  match closes with
  | none => .UNKNOWN
  | some cs =>
    if cs.length < 20 then .UNKNOWN
    else
      match cs.getLast? with
      | none => .UNKNOWN
      | some lastClose =>
        let sma := (cs.drop (cs.length - 20)).sum / 20
        if lastClose > sma * (1001 / 1000) then .BULL
        else if lastClose < sma * (999 / 1000) then .BEAR
        else .RANGE

/-- Result dict of `check_confluence`. -/
structure ConfluenceResult where
  success : Bool
  confluence_passed : Bool := false
  spread_ok : Bool := false
  bias_h4 : Bias := .UNKNOWN
  bias_d1 : Bias := .UNKNOWN
  auction_blackout : Bool := false
  error : Option String := none
deriving DecidableEq, Repr

/-- `SignalDetectionService.check_confluence` (the later of the two
identical definitions in the class body is the live one).  `bias_gate`
is initialised `True` and both conditional branches re-assign `True`;
a raised news query (`env.newsQuery = .error`) is swallowed leaving
`news_blackout = False`.  The two persisted `ConfluenceCheck` audit rows
carry no decision state and are not tracked. -/
def check_confluence (st : St) (env : Env) : ConfluenceResult × St :=
  match env.tick with
  | none => ({ success := false, error := some "No tick data" }, st)
  | some tick =>
    let spread := (tick.ask - tick.bid) * 10
    let spread_ok := decide (spread ≤ 2)
    let bias_d1 := bias_of env.d1_closes
    let bias_h4 := bias_of env.h4_closes
    let bias_gate := true
    let news_blackout :=
      match env.newsQuery with
      | .ok b => b
      | .error _ => false
    let confluence_passed := spread_ok && !news_blackout && bias_gate
    ({ success := true, confluence_passed := confluence_passed,
       spread_ok := spread_ok, bias_h4 := bias_h4, bias_d1 := bias_d1,
       auction_blackout := news_blackout }, st)

/-- Risk percentage by grade: `risk_map.get((grade or 'NORMAL').upper(),
0.01)` with TIGHT → 0.5%, NORMAL/WIDE → 1.0%. -/
def riskPctOfGrade : Option RangeGrade → ℚ
  | some .TIGHT => 1 / 200
  | some .NORMAL => 1 / 100
  | some .WIDE => 1 / 100
  | none => 1 / 100

/-- The volume formula of `generate_trade_signal`:
`max(0.01, round(risk_amount / approx_value_per_lot, 2))`. -/
def sizingVolume (risk_amount approx_value_per_lot : ℚ) : ℚ :=
  max (1 / 100) (roundTo 2 (risk_amount / approx_value_per_lot))

/-- The spec's §4.5 sizing sentence, for refinement comparison:
"volume = risk_amount / value_per_lot, rounded to 2 decimals, clamped
to [0.01, 0.5]". -/
def spec_volume (risk_amount value_per_lot : ℚ) : ℚ :=
  max (1 / 100) (min (roundTo 2 (risk_amount / value_per_lot)) (1 / 2))

/-- Entry price of `generate_trade_signal`: ask when fading an UP sweep
(SELL), bid when fading a DOWN sweep (BUY). -/
def entryOf (sweep : SweepRec) (tick : Tick) : ℚ :=
  if sweep.sweep_direction = .UP then tick.ask else tick.bid

/-- Stop of `generate_trade_signal`: sweep price ± 0.0005 against the trade. -/
def stopOf (sweep : SweepRec) : ℚ :=
  if sweep.sweep_direction = .UP then sweep.sweep_price + 5 / 10000
  else sweep.sweep_price - 5 / 10000

/-- Result dict of `generate_trade_signal`. -/
structure GenResult where
  success : Bool
  signal_generated : Bool := false
  signal_type : Option SignalType := none
  entry_price : Option ℚ := none
  stop_loss : Option ℚ := none
  take_profit_1 : Option ℚ := none
  take_profit_2 : Option ℚ := none
  volume : Option ℚ := none
  error : Option String := none
deriving DecidableEq, Repr

/-- `SignalDetectionService.generate_trade_signal`. -/
def generate_trade_signal (st : St) (env : Env) : GenResult × St :=
  if st.session.current_state ≠ .CONFIRMED then
    ({ success := false, error := some "Invalid state for signal generation" }, st)
  else
    match st.db.sweeps.head? with
    | none => ({ success := false, error := some "No sweep found for session" }, st)
    | some sweep =>
      match env.tick with
      | none => ({ success := false, error := some "Failed to get current price" }, st)
      | some tick =>
        let entry_price := entryOf sweep tick
        let stop_loss := stopOf sweep
        let signal_type : SignalType :=
          if sweep.sweep_direction = .UP then .SELL else .BUY
        let take_profit_1 := st.session.asian_range_midpoint
        let take_profit_2 :=
          if sweep.sweep_direction = .UP then st.session.asian_range_low - 2 / 10000
          else st.session.asian_range_high + 2 / 10000
        match env.account with
        | none => ({ success := false, error := some "Failed to get account info" }, st)
        | some account =>
          let risk_pct := riskPctOfGrade st.session.asian_range_grade
          let risk_amount := account.equity * risk_pct
          let stop_distance := |entry_price - stop_loss|
          match env.symbol_info with
          | none =>
            ({ success := false, error := some "Symbol info unavailable for sizing" }, st)
          | some info =>
            let point := info.point
            let tick_value :=
              if info.trade_tick_value = 0 then 1 else info.trade_tick_value
            let approx_value_per_lot :=
              (stop_distance / max point (1 / 1000000000)) * tick_value
            if approx_value_per_lot ≤ 0 then
              ({ success := false, error := some "Invalid sizing parameters" }, st)
            else
              let volume := sizingVolume risk_amount approx_value_per_lot
              let signal : SignalRec :=
                { signal_type := signal_type, entry_price := entry_price,
                  stop_loss := stop_loss, take_profit_1 := take_profit_1,
                  take_profit_2 := take_profit_2, volume := volume,
                  risk_percentage := risk_pct * 100 }
              ({ success := true, signal_generated := true,
                 signal_type := some signal_type, entry_price := some entry_price,
                 stop_loss := some stop_loss, take_profit_1 := some take_profit_1,
                 take_profit_2 := some take_profit_2, volume := some volume },
               { session := { st.session with current_state := .ARMED },
                 db := { st.db with signals := signal :: st.db.signals } })

/-- Result dict of `execute_trade`. -/
structure ExecResult where
  success : Bool
  error : Option String := none
  order_id : Option ℕ := none
  session_state : Option SessionState := none
deriving DecidableEq, Repr

/-- `SignalDetectionService.execute_trade`: on a rejected order the
error is returned and nothing is persisted or transitioned; on success
the session moves to IN_TRADE and a TradeExecution row is created inside
`try/except: pass` (a failed creation, `env.execPersistOk = false`, is
swallowed). -/
def execute_trade (st : St) (env : Env) : ExecResult × St :=
  if st.session.current_state ≠ .ARMED then
    ({ success := false, error := some "No armed signal to execute" }, st)
  else
    match st.db.signals.head? with
    | none => ({ success := false, error := some "No signal found" }, st)
    | some _signal =>
      match env.orderResult with
      | .error msg => ({ success := false, error := some msg }, st)
      | .ok order_id =>
        let st1 : St :=
          { st with session := { st.session with current_state := .IN_TRADE } }
        let st2 : St :=
          if env.execPersistOk then
            { st1 with db := { st1.db with
                executions := { order_id := order_id, profit := none } :: st1.db.executions } }
          else st1
        ({ success := true, order_id := some order_id,
           session_state := some .IN_TRADE }, st2)

/-- Result dict of `manage_in_trade`. -/
structure MgmtResult where
  success : Bool
  trade_closed : Bool := false
  reason : Option String := none
  error : Option String := none
deriving DecidableEq, Repr

/-- `SignalDetectionService.manage_in_trade`.  Its whole body runs under
`try/except Exception`, so every outcome is a structured dict.  When an
open position is found, the source next reads `signal.take_profit1`
(line 623); the `TradeSignal` model only defines `take_profit_1`, so
this read raises `AttributeError`, which the outer handler converts to
`{'success': False, 'error': ...}` — the breakeven / trailing / partial
blocks further down are unreachable, and no TradeManagement row is ever
created on this path. -/
def manage_in_trade (st : St) (env : Env) : MgmtResult × St :=
  if st.session.current_state ≠ .IN_TRADE then
    ({ success := false, reason := some "Not in trade" }, st)
  else
    match st.db.signals.head? with
    | none => ({ success := false, reason := some "No signal found" }, st)
    | some _signal =>
      match env.positions with
      | .error _ =>
        match st.db.executions.head? with
        | some _ex =>
          ({ success := true, trade_closed := true,
             reason := some "Position already closed" },
           { st with session := { st.session with current_state := .COOLDOWN } })
        | none =>
          ({ success := false,
             reason := some "No open positions and no execution record" }, st)
      | .ok [] =>
        match st.db.executions.head? with
        | some _ex =>
          ({ success := true, trade_closed := true,
             reason := some "Position already closed" },
           { st with session := { st.session with current_state := .COOLDOWN } })
        | none => ({ success := false, reason := some "No open positions" }, st)
      | .ok (_pos :: _) =>
        ({ success := false,
           error := some "AttributeError: TradeSignal object has no attribute take_profit1" },
         st)

/-- `AutoTradingService._calculate_position_size` (the execution-side
sizing): 1% of balance risked, XAUUSD pip value 0.1 and $10 per pip per
lot, rounded to 2 decimals and clamped to [0.01, 0.5]; every fallback
path returns the minimum 0.01. -/
def calculate_position_size (account : Option AccountInfo)
    (signal : Option SignalRec) : ℚ :=
  match account with
  | none => 1 / 100
  | some account =>
    match signal with
    | none => 1 / 100
    | some signal =>
      let risk_amount := account.balance * (1 / 100)
      let pip_value : ℚ := 1 / 10
      let pip_value_per_lot : ℚ := 10
      let sl_pips :=
        if signal.signal_type = .BUY then
          (signal.entry_price - signal.stop_loss) / pip_value
        else (signal.stop_loss - signal.entry_price) / pip_value
      if sl_pips ≤ 0 then 1 / 100
      else
        let position_size := roundTo 2 (risk_amount / (sl_pips * pip_value_per_lot))
        max (1 / 100) (min position_size (1 / 2))

/-- `stage` labels of `run_strategy_once` results. -/
inductive Stage
  | DETECT | CONFIRM | CONFLUENCE | RETEST | SIGNAL | EXECUTE | DONE
  | ALREADY_IN_TRADE | UNKNOWN
deriving DecidableEq, Repr

/-- Result dict of `run_strategy_once`. -/
structure RunResult where
  success : Bool
  stage : Stage
  no_trade : Bool := false
  reason : Option String := none
  error : Option String := none
deriving DecidableEq, Repr

/-- The `if state == 'ARMED'` block of `run_strategy_once`: execute the
order and, on success, perform one management step. -/
def armedBranch (st : St) (env : Env) : RunResult × St :=
  let (exe, st1) := execute_trade st env
  if ¬ exe.success then
    ({ success := false, stage := .EXECUTE,
       error := some (exe.error.getD "execution failed") }, st1)
  else
    let (_tm, st2) := manage_in_trade st1 env
    ({ success := true, stage := .DONE }, st2)

/-- The retest-and-signal tail of the `CONFIRMED` block of
`run_strategy_once`: fetch M5 (widening fallbacks collapsed into
`env.m5`), require a touch of the midpoint ± 5-pip band, then generate
the signal, re-check confluence, and fall through to the ARMED block. -/
def retestAndSignal (st : St) (env : Env) : RunResult × St :=
  let asian_mid := st.session.asian_range_midpoint
  match env.m5 with
  | none =>
    ({ success := false, stage := .RETEST, no_trade := true,
       reason := some "No M5 data for retest" }, st)
  | some m5 =>
    if m5.isEmpty then
      ({ success := false, stage := .RETEST, no_trade := true,
         reason := some "No M5 data for retest" }, st)
    else
      let band : ℚ := 5 * (1 / 10)
      let touched := m5.any (fun b =>
        decide (b.low ≤ asian_mid + band) && decide (b.high ≥ asian_mid - band))
      if ¬ touched then
        ({ success := false, stage := .RETEST, no_trade := true,
           reason := some "Awaiting retest of entry zone (midpoint +/- 5 pips)" }, st)
      else
        let (sig, st1) := generate_trade_signal st env
        if ¬ sig.success then
          ({ success := false, stage := .SIGNAL,
             error := some (sig.error.getD "signal failed") }, st1)
        else
          let (conf2, st2) := check_confluence st1 env
          if ¬ conf2.confluence_passed then
            ({ success := false, stage := .CONFLUENCE, no_trade := true,
               reason := some "Confluence failed at arming" }, st2)
          else armedBranch st2 env

/-- The `if state == 'CONFIRMED'` block of `run_strategy_once`: the
confluence guard runs first; only then is the 15-minute retest window
checked (`confirmation_time` set and more than 15 minutes old forces
COOLDOWN), and only then the retest/signal steps. -/
def confirmedBranch (st : St) (env : Env) : RunResult × St :=
  let (conf, st1) := check_confluence st env
  if ¬ (conf.success ∧ conf.confluence_passed) then
    ({ success := false, stage := .CONFLUENCE, no_trade := true,
       reason := some "Confluence failed" }, st1)
  else
    match st1.session.confirmation_time with
    | some ct =>
      if env.now - ct > 15 then
        ({ success := false, stage := .RETEST, no_trade := true,
           reason := some "Retest window expired (3 M5 bars). Entering cooldown." },
         { st1 with session := { st1.session with current_state := .COOLDOWN } })
      else retestAndSignal st1 env
    | none => retestAndSignal st1 env

/-- The `if state == 'SWEPT'` block of `run_strategy_once`: confirm the
reversal and fall through into the CONFIRMED block. -/
def sweptBranch (st : St) (env : Env) : RunResult × St :=
  let (confirm, st1) := confirm_reversal st env
  if ¬ (confirm.success ∧ confirm.confirmed) then
    ({ success := false, stage := .CONFIRM, no_trade := true,
       reason := some (confirm.reason.getD "not confirmed") }, st1)
  else confirmedBranch st1 env

/-- `SignalDetectionService.run_strategy_once`: the one-shot
detect → confirm → confluence → signal → execute pipeline.  A session is
assumed to exist (`initialize_session` has run). -/
def run_strategy_once (st : St) (env : Env) : RunResult × St :=
  match st.session.current_state with
  | .IDLE =>
    let (sweep, st1) := detect_sweep st env
    if ¬ sweep.success then
      ({ success := false, stage := .DETECT,
         error := some (sweep.error.getD "detect failed") }, st1)
    else if ¬ sweep.sweep_detected then
      ({ success := false, stage := .DETECT, no_trade := true,
         reason := some "No sweep detected" }, st1)
    else sweptBranch st1 env
  | .SWEPT => sweptBranch st env
  | .CONFIRMED => confirmedBranch st env
  | .ARMED => armedBranch st env
  | .IN_TRADE =>
    let (_tm, st1) := manage_in_trade st env
    ({ success := true, stage := .ALREADY_IN_TRADE }, st1)
  | .COOLDOWN =>
    ({ success := false, stage := .UNKNOWN, error := some "Unhandled state" }, st)

/-! Concrete fixtures used by the scenario theorems.  `baseEnv` leaves
every port unavailable / failing; each scenario overrides what it needs. -/

/-- An IDLE session over the Scenario A reference range
(high 2005, low 1995, NORMAL grade). -/
def baseSession : Session :=
  { current_state := .IDLE, sweep_direction := none, sweep_threshold := none,
    confirmation_time := none, asian_range_high := 2005, asian_range_low := 1995,
    asian_range_midpoint := 2000, asian_range_grade := some .NORMAL }

/-- No persisted rows yet. -/
def emptyDb : Db := { sweeps := [], signals := [], executions := [], mgmt := [] }

/-- Baseline environment: Scenario A range data and tick, all other
ports unavailable. -/
def baseEnv : Env :=
  { asian := some { high := 2005, low := 1995, midpoint := 2000,
                    range_pips := 100, grade := .NORMAL },
    tick := some { bid := 2015.95, ask := 2016.0 },
    m5 := none, m1 := none, d1_closes := none, h4_closes := none,
    newsQuery := .ok false, account := none, symbol_info := none,
    orderResult := .error "order failed", execPersistOk := true,
    positions := .ok [], now := 0 }

/-- Scenario A state: fresh IDLE session, nothing persisted. -/
def c4St : St := { session := baseSession, db := emptyDb }

/-- An IDLE session that already recorded a DOWN sweep earlier in the
day (state was reset to IDLE after cooldown). -/
def c7St : St :=
  { session := { baseSession with sweep_direction := some .DOWN }, db := emptyDb }

/-- An ARMED session holding one generated BUY signal, used to witness
the order-rejection path. -/
def c8St : St :=
  { session := { baseSession with current_state := .ARMED },
    db := { emptyDb with
            signals := [{ signal_type := .BUY, entry_price := 2000,
                          stop_loss := 1999, take_profit_1 := 2002,
                          take_profit_2 := 2004, volume := 1/2,
                          risk_percentage := 1 }] } }

/-- An IN_TRADE session with a live BUY signal (entry 2000, stop 1999,
so the initial risk distance is 1.0) and a persisted execution. -/
def c6St : St :=
  { session := { baseSession with current_state := .IN_TRADE },
    db := { emptyDb with
            signals := [{ signal_type := .BUY, entry_price := 2000,
                          stop_loss := 1999, take_profit_1 := 2002,
                          take_profit_2 := 2004, volume := 1/2,
                          risk_percentage := 1 }],
            executions := [{ order_id := 42, profit := none }] } }

/-- Scenario E environment: an open position exists and the ask sits at
exactly entry + 0.5R (2000.5); no prior management action is recorded. -/
def c6Env : Env :=
  { baseEnv with
    tick := some { bid := 2000.4, ask := 2000.5 },
    positions := .ok [{ ticket := 1, volume := 1/2, tp := none, profit := none }] }

/-- A SWEPT session after the Scenario A UP sweep. -/
def c3St : St :=
  { session := { baseSession with
                 current_state := .SWEPT, sweep_direction := some .UP,
                 sweep_threshold := some 10 },
    db := { emptyDb with
            sweeps := [{ sweep_direction := .UP, sweep_price := 2015.95,
                         sweep_threshold := 10 }] } }

/-- An M5 bar that passes both the range re-entry gate (close 2000 is
inside [1995, 2005]) and the displacement gate (body 1.0 against the
short-series default ATR 0.001). -/
def confirmBar : Bar := { opn := 2001, high := 2002, low := 1999, close := 2000 }

/-- Environment in which every reversal gate before CHOCH passes and
the M1 fetch returns an empty series. -/
def c3Env : Env :=
  { baseEnv with
    tick := some { bid := 2000, ask := 2000.1 },
    m5 := some [confirmBar],
    m1 := some [] }

/-- Environment whose M1 fetch returns exactly two flat bars. -/
def c3Env2 : Env := { c3Env with m1 := some [confirmBar, confirmBar] }

/-- Scenario D session: CONFIRMED, NORMAL grade, holding an UP sweep
at price 2003. -/
def c1St : St :=
  { session := { baseSession with current_state := .CONFIRMED },
    db := { emptyDb with
            sweeps := [{ sweep_direction := .UP, sweep_price := 2003,
                         sweep_threshold := 10 }] } }

/-- Scenario D environment: equity 10000, ask 2002.2005 so that the
stop distance to 2003.0005 is exactly 0.8, point 0.1, tick value 1.0. -/
def c1Env : Env :=
  { baseEnv with
    tick := some { bid := 2002, ask := 2002.2005 },
    account := some { balance := 10000, equity := 10000 },
    symbol_info := some { point := 1/10, trade_tick_value := 1,
                          trade_contract_size := 100 } }

/-- A CONFIRMED session whose confirmation happened at time 0. -/
def c2St : St :=
  { session := { baseSession with
                 current_state := .CONFIRMED, confirmation_time := some 0 },
    db := emptyDb }

/-- 16 minutes after confirmation, with a 3-pip spread (ask − bid =
0.3), so the spread gate fails. -/
def c2EnvFail : Env :=
  { baseEnv with tick := some { bid := 2000, ask := 2000.3 }, now := 16 }

/-- 16 minutes after confirmation with a healthy 1-pip spread. -/
def c2EnvPass : Env :=
  { baseEnv with tick := some { bid := 2000, ask := 2000.1 }, now := 16 }

/-- An environment in which every stage succeeds: reversal gates pass,
confluence passes, the retest band is touched, sizing resolves, the
broker accepts the order, and an open position then exists. -/
def c5Env : Env :=
  { asian := some { high := 2005, low := 1995, midpoint := 2000,
                    range_pips := 100, grade := .NORMAL },
    tick := some { bid := 2000, ask := 2000.1 },
    m5 := some [confirmBar], m1 := none, d1_closes := none, h4_closes := none,
    newsQuery := .ok false,
    account := some { balance := 10000, equity := 10000 },
    symbol_info := some { point := 1/10, trade_tick_value := 1,
                          trade_contract_size := 100 },
    orderResult := .ok 42, execPersistOk := true,
    positions := .ok [{ ticket := 1, volume := 1/2, tp := none, profit := none }],
    now := 100 }

/-- On the Scenario A range (100 pips) the threshold is the 10-pip
floor: `round(max(10, 100*0.09), 1) = 10.0`. -/
theorem threshold_scenarioA :
    calculate_sweep_threshold
      { high := 2005, low := 1995, midpoint := 2000,
        range_pips := 100, grade := .NORMAL } = 10 := by
  norm_num [calculate_sweep_threshold, roundTo, round_eq]

/-- Bid 2015.95 is above 2005 + 1.0, so Scenario A detects an UP sweep. -/
theorem sweepDir_scenarioA :
    sweepDirectionOf
      { high := 2005, low := 1995, midpoint := 2000,
        range_pips := 100, grade := .NORMAL } 2015.95 = some .UP := by
  norm_num [sweepDirectionOf, threshold_scenarioA]

/-- C4 counterexample: on Scenario A's inputs (range 100 pips) the code
computes `threshold_pips = round(max(10, 100*0.09), 1) = 10.0`, not the
9.0 the claim states — the 10-pip floor dominates 9% of the range. -/
theorem C4_counterexample :
    (detect_sweep c4St baseEnv).1.threshold = some 10 ∧ (10 : ℚ) ≠ 9 := by
  constructor
  · simp [detect_sweep, c4St, baseSession, emptyDb, baseEnv,
          sweepDir_scenarioA, threshold_scenarioA]
  · norm_num

/-- C4 (amended): Scenario A with the threshold the code actually
computes: range high 2005 / low 1995 gives `threshold_pips = max(10,
9.0) = 10.0` (price 1.0), and tick bid 2015.95 > 2005 + 1.0 still
triggers a sweep UP with `sweep_price = 2015.95`, transitioning the
session to SWEPT. -/
theorem C4_scenarioA :
    (detect_sweep c4St baseEnv).1.sweep_detected = true ∧
    (detect_sweep c4St baseEnv).1.direction = some .UP ∧
    (detect_sweep c4St baseEnv).1.price = some (2015.95 : ℚ) ∧
    (detect_sweep c4St baseEnv).1.threshold = some 10 ∧
    (detect_sweep c4St baseEnv).2.session.current_state = .SWEPT := by
  refine ⟨?_, ?_, ?_, ?_, ?_⟩ <;>
    simp [detect_sweep, c4St, baseSession, emptyDb, baseEnv,
          sweepDir_scenarioA, threshold_scenarioA]

/-- C7: when the session holds a sweep direction and the price now
breaches the opposite side beyond the threshold, `detect_sweep` goes
straight to COOLDOWN, reports both sides swept (success False, session
state COOLDOWN in the result), and creates no `LiquiditySweep` row; and
in general the number of `LiquiditySweep` rows grows by exactly one on
an IDLE → SWEPT transition and is unchanged otherwise. -/
theorem C7_both_sides_cooldown :
    (∀ st env asian tick d0 d,
       st.session.current_state = .IDLE →
       env.asian = some asian → env.tick = some tick →
       st.session.sweep_direction = some d0 →
       sweepDirectionOf asian tick.bid = some d → d0 ≠ d →
       (detect_sweep st env).2.session.current_state = .COOLDOWN ∧
       (detect_sweep st env).1.reason = some "Both sides swept; entering cooldown" ∧
       (detect_sweep st env).1.session_state = some .COOLDOWN ∧
       (detect_sweep st env).1.success = false ∧
       (detect_sweep st env).2.db.sweeps = st.db.sweeps) ∧
    (∀ st env,
       (detect_sweep st env).2.db.sweeps.length =
         st.db.sweeps.length +
           (if st.session.current_state = .IDLE ∧
               (detect_sweep st env).2.session.current_state = .SWEPT
            then 1 else 0)) := by
  constructor
  · intro st env asian tick d0 d hstate hasian htick hdir hsweep hne
    simp [detect_sweep, hstate, hasian, htick, hdir, hsweep, hne]
  · intro st env
    by_cases hstate : st.session.current_state = .IDLE
    · cases hasian : env.asian with
      | none => simp [detect_sweep, hstate, hasian]
      | some asian =>
        cases htick : env.tick with
        | none => simp [detect_sweep, hstate, hasian, htick]
        | some tick =>
          cases hdir : sweepDirectionOf asian tick.bid with
          | none => simp [detect_sweep, hstate, hasian, htick, hdir]
          | some d =>
            cases hsd : st.session.sweep_direction with
            | none => simp [detect_sweep, hstate, hasian, htick, hdir, hsd]
            | some d0 =>
              by_cases hne : d0 = d
              · simp [detect_sweep, hstate, hasian, htick, hdir, hsd, hne]
              · simp [detect_sweep, hstate, hasian, htick, hdir, hsd, hne]
    · simp [detect_sweep, hstate]

/-- Witness for C7: the concrete IDLE session with a recorded DOWN
sweep, hit by the Scenario A UP breach. -/
theorem C7_both_sides_cooldown_witness :
    (detect_sweep c7St baseEnv).2.session.current_state = .COOLDOWN ∧
    (detect_sweep c7St baseEnv).1.reason = some "Both sides swept; entering cooldown" ∧
    (detect_sweep c7St baseEnv).1.session_state = some .COOLDOWN ∧
    (detect_sweep c7St baseEnv).1.success = false ∧
    (detect_sweep c7St baseEnv).2.db.sweeps = c7St.db.sweeps :=
  C7_both_sides_cooldown.1 c7St baseEnv _ _ .DOWN .UP rfl rfl rfl rfl
    sweepDir_scenarioA (by decide)

/-- C8: when the broker rejects the order of an ARMED session,
`execute_trade` returns the failure reason, creates no `TradeExecution`
row, and leaves the whole state (session still ARMED, db untouched)
exactly as it was. -/
theorem C8_order_failure_atomic (st : St) (env : Env) (sig : SignalRec) (msg : String)
    (hstate : st.session.current_state = .ARMED)
    (hsig : st.db.signals.head? = some sig)
    (horder : env.orderResult = .error msg) :
    (execute_trade st env).1.success = false ∧
    (execute_trade st env).1.error = some msg ∧
    (execute_trade st env).2.session.current_state = .ARMED ∧
    (execute_trade st env).2.db.executions = st.db.executions ∧
    (execute_trade st env).2 = st := by
  simp [execute_trade, hstate, hsig, horder]

/-- Witness for C8: the baseline environment rejects the order with
message "order failed"; everything is left in place. -/
theorem C8_order_failure_atomic_witness :
    (execute_trade c8St baseEnv).1.success = false ∧
    (execute_trade c8St baseEnv).1.error = some "order failed" ∧
    (execute_trade c8St baseEnv).2.session.current_state = .ARMED ∧
    (execute_trade c8St baseEnv).2.db.executions = c8St.db.executions ∧
    (execute_trade c8St baseEnv).2 = c8St :=
  C8_order_failure_atomic c8St baseEnv _ _ rfl rfl rfl

/-- C9: whenever a tick is available, `check_confluence` succeeds and
its overall verdict is exactly `spread_ok AND NOT news_blackout`; the
D1/H4 bias series can be replaced by any other series without changing
the verdict, because `bias_gate` is constantly true. -/
theorem C9_confluence_pass_formula (st : St) (env : Env) (tick : Tick)
    (htick : env.tick = some tick) :
    (check_confluence st env).1.success = true ∧
    (check_confluence st env).1.confluence_passed =
      ((check_confluence st env).1.spread_ok &&
       !(check_confluence st env).1.auction_blackout) ∧
    (∀ d1 h4,
      (check_confluence st
        { env with d1_closes := d1, h4_closes := h4 }).1.confluence_passed =
      (check_confluence st env).1.confluence_passed) := by
  refine ⟨?_, ?_, ?_⟩
  · simp [check_confluence, htick]
  · simp [check_confluence, htick]
  · intro d1 h4
    simp [check_confluence, htick]

/-- Witness for C9 at the baseline environment (spread 0.5 pips, no
news): the gate passes and equals the two-factor formula. -/
theorem C9_confluence_pass_formula_witness :
    (check_confluence c4St baseEnv).1.success = true ∧
    (check_confluence c4St baseEnv).1.confluence_passed =
      ((check_confluence c4St baseEnv).1.spread_ok &&
       !(check_confluence c4St baseEnv).1.auction_blackout) ∧
    (∀ d1 h4,
      (check_confluence c4St
        { baseEnv with d1_closes := d1, h4_closes := h4 }).1.confluence_passed =
      (check_confluence c4St baseEnv).1.confluence_passed) :=
  C9_confluence_pass_formula c4St baseEnv _ rfl

/-- C10: `manage_in_trade` is wrapped in a `try/except Exception`
handler, so it always returns a structured dict — reflected here by its
embedding being a total function — and every non-success outcome
carries a reason or an error description. -/
theorem C10_mgmt_total (st : St) (env : Env) :
    (manage_in_trade st env).1.success = true ∨
    (manage_in_trade st env).1.reason ≠ none ∨
    (manage_in_trade st env).1.error ≠ none := by
  unfold manage_in_trade
  repeat' split
  all_goals simp

/-- C6 (code bug): at Scenario E's failing input — IN_TRADE, open
position, price exactly +0.5R, no prior MOVE_TO_BREAKEVEN action — the
source reads `signal.take_profit1` (line 623) although the model field
is `take_profit_1` (it is read correctly as `signal.take_profit_1` at
line 380), so an `AttributeError` is raised and swallowed by the outer
handler: the call reports failure and no management action is created,
instead of the claimed single breakeven action with the stop at entry.
(`TradeService` also defines no `modify_position_sl_tp`, so the stop
move would fail even after fixing the field name.) -/
theorem C6_breakeven_bug :
    (manage_in_trade c6St c6Env).1.success = false ∧
    (manage_in_trade c6St c6Env).1.error =
      some "AttributeError: TradeSignal object has no attribute take_profit1" ∧
    (manage_in_trade c6St c6Env).2 = c6St ∧
    (manage_in_trade c6St c6Env).2.db.mgmt.length = 0 := by
  refine ⟨?_, ?_, ?_, ?_⟩ <;> rfl

/-- C3 counterexample: with ZERO M1 bars the CHOCH gate is skipped
entirely (`if m1_data is not None and len(m1_data) > 0`), so the
session IS confirmed, contradicting the claim that fewer than 3 bars —
including zero — prevent confirmation. -/
theorem C3_counterexample :
    c3Env.m1 = some [] ∧ ([] : List Bar).length < 3 ∧
    (confirm_reversal c3St c3Env).1.confirmed = true ∧
    (confirm_reversal c3St c3Env).2.session.current_state = .CONFIRMED := by
  refine ⟨rfl, by norm_num, ?_, ?_⟩ <;>
    norm_num [confirm_reversal, c3St, c3Env, baseSession, baseEnv, emptyDb,
              confirmBar, calculate_atr]

/-- C3 (amended): `_detect_choch` itself reports no CHOCH whenever
fewer than 3 bars are given, and `confirm_reversal` leaves the session
unconfirmed and unchanged whenever the fetched M1 series is NONEMPTY
with fewer than 3 bars; only an empty (or absent) M1 series bypasses
the gate. -/
theorem C3_choch_fail_safe :
    (∀ bars dir, bars.length < 3 → detect_choch bars dir = false) ∧
    (∀ st env m1bars,
       env.m1 = some m1bars → 0 < m1bars.length → m1bars.length < 3 →
       (confirm_reversal st env).1.confirmed = false ∧
       (confirm_reversal st env).2 = st) := by
  have hch : ∀ (bars : List Bar) dir, bars.length < 3 → detect_choch bars dir = false := by
    intro bars dir h
    unfold detect_choch
    simp [h]
  refine ⟨hch, ?_⟩
  intro st env m1bars hm1 hpos hlt
  by_cases hstate : st.session.current_state = .SWEPT
  · cases hm5 : env.m5 with
    | none => simp [confirm_reversal, hstate, hm5]
    | some m5 =>
      cases hlast : m5.getLast? with
      | none => simp [confirm_reversal, hstate, hm5, hlast]
      | some latest_candle =>
        cases hasian : env.asian with
        | none => simp [confirm_reversal, hstate, hm5, hlast, hasian]
        | some asian =>
          by_cases hin : asian.low ≤ latest_candle.close ∧ latest_candle.close ≤ asian.high
          · by_cases hdisp :
              |latest_candle.close - latest_candle.opn| < calculate_atr m5 14 * (13 / 10)
            · simp [confirm_reversal, hstate, hm5, hlast, hasian, hin, hdisp]
            · simp [confirm_reversal, hstate, hm5, hlast, hasian, hin, hdisp,
                    hm1, hpos, hch m1bars _ hlt]
          · simp [confirm_reversal, hstate, hm5, hlast, hasian, hin]
  · simp [confirm_reversal, hstate]

/-- Witness for C3 (amended): with two M1 bars the reversal is not
confirmed and the session is untouched. -/
theorem C3_choch_fail_safe_witness :
    (confirm_reversal c3St c3Env2).1.confirmed = false ∧
    (confirm_reversal c3St c3Env2).2 = c3St :=
  C3_choch_fail_safe.2 c3St c3Env2 [confirmBar, confirmBar] rfl
    (by norm_num) (by norm_num)

/-- Shared helper: on every successful `generate_trade_signal`, the
returned and stored volumes both equal `sizingVolume` applied to the
risk amount (equity × grade risk) and the per-lot value derived from
the stop distance and symbol metadata. -/
theorem generate_signal_volume (st : St) (env : Env) (sweep : SweepRec) (tick : Tick)
    (account : AccountInfo) (info : SymbolInfo)
    (hstate : st.session.current_state = .CONFIRMED)
    (hsweep : st.db.sweeps.head? = some sweep)
    (htick : env.tick = some tick)
    (hacct : env.account = some account)
    (hinfo : env.symbol_info = some info)
    (hvpl : 0 < (|entryOf sweep tick - stopOf sweep| / max info.point (1 / 1000000000)) *
              (if info.trade_tick_value = 0 then 1 else info.trade_tick_value)) :
    (generate_trade_signal st env).1.volume =
      some (sizingVolume (account.equity * riskPctOfGrade st.session.asian_range_grade)
        ((|entryOf sweep tick - stopOf sweep| / max info.point (1 / 1000000000)) *
         (if info.trade_tick_value = 0 then 1 else info.trade_tick_value))) ∧
    (generate_trade_signal st env).2.db.signals.head?.map (fun s => s.volume) =
      some (sizingVolume (account.equity * riskPctOfGrade st.session.asian_range_grade)
        ((|entryOf sweep tick - stopOf sweep| / max info.point (1 / 1000000000)) *
         (if info.trade_tick_value = 0 then 1 else info.trade_tick_value))) := by
  have hnle : ¬ ((|entryOf sweep tick - stopOf sweep| / max info.point (1 / 1000000000)) *
      (if info.trade_tick_value = 0 then 1 else info.trade_tick_value) ≤ 0) :=
    not_le.mpr hvpl
  by_cases htv : info.trade_tick_value = 0
  · simp only [htv, if_true, mul_one, one_div] at hnle ⊢
    constructor <;>
      simp [generate_trade_signal, hstate, hsweep, htick, hacct, hinfo, htv, hnle]
  · simp only [htv, if_false, one_div] at hnle ⊢
    constructor <;>
      simp [generate_trade_signal, hstate, hsweep, htick, hacct, hinfo, htv, hnle]

/-- The Scenario D stop distance: |2002.2005 − 2003.0005| = 0.8. -/
theorem c1_stop_distance :
    |entryOf { sweep_direction := .UP, sweep_price := 2003, sweep_threshold := 10 }
        { bid := 2002, ask := 2002.2005 } -
     stopOf { sweep_direction := .UP, sweep_price := 2003, sweep_threshold := 10 }| =
    (4 : ℚ) / 5 := by
  rw [entryOf, stopOf]
  norm_num

/-- The Scenario D per-lot value: (0.8 / 0.1) × 1.0 = 8. -/
theorem c1_value_per_lot :
    (|entryOf { sweep_direction := .UP, sweep_price := 2003, sweep_threshold := 10 }
        { bid := 2002, ask := 2002.2005 } -
      stopOf { sweep_direction := .UP, sweep_price := 2003, sweep_threshold := 10 }| /
        max ((1 : ℚ)/10) (1 / 1000000000)) *
      (if (1 : ℚ) = 0 then 1 else 1) = 8 := by
  rw [c1_stop_distance]
  norm_num [max_eq_left]

/-- Scenario D code volume: max(0.01, round(100 / 8, 2)) = 12.5. -/
theorem c1_code_volume : sizingVolume (10000 * riskPctOfGrade (some .NORMAL)) 8 = 25 / 2 := by
  norm_num [sizingVolume, riskPctOfGrade, roundTo, round_eq]

/-- C1 counterexample: at Scenario D the Signal row stores volume 12.5
— `generate_trade_signal` applies no 0.5 upper clamp — while the spec
formula (clamped to [0.01, 0.5]) yields 0.5; 12.5 is outside [0.01, 0.5]. -/
theorem C1_counterexample :
    (generate_trade_signal c1St c1Env).1.volume = some (25 / 2) ∧
    (generate_trade_signal c1St c1Env).2.db.signals.head?.map (fun s => s.volume) =
      some (25 / 2) ∧
    spec_volume (10000 * riskPctOfGrade (some .NORMAL)) 8 = 1 / 2 ∧
    ¬ ((25 : ℚ) / 2 ≤ 1 / 2) := by
  have h := generate_signal_volume c1St c1Env
    { sweep_direction := .UP, sweep_price := 2003, sweep_threshold := 10 }
    { bid := 2002, ask := 2002.2005 }
    { balance := 10000, equity := 10000 }
    { point := 1/10, trade_tick_value := 1, trade_contract_size := 100 }
    rfl rfl rfl rfl rfl (by rw [c1_value_per_lot]; norm_num)
  rw [c1_value_per_lot] at h
  refine ⟨?_, ?_, ?_, by norm_num⟩
  · rw [h.1]
    exact congrArg some c1_code_volume
  · rw [h.2]
    exact congrArg some c1_code_volume
  · norm_num [spec_volume, riskPctOfGrade, roundTo, round_eq]

/-- C1 (amended): the volume stored on the created Signal is
`risk_amount / value_per_lot` rounded to 2 decimals and clamped below
at 0.01, with NO upper clamp — at Scenario D it is 12.5, not 0.5; the
[0.01, 0.5] clamp is applied only by the execution-side
`AutoTradingService._calculate_position_size`, whose result always lies
in [0.01, 0.5]. -/
theorem C1_amended_sizing :
    (∀ st env sweep tick account info,
       st.session.current_state = .CONFIRMED →
       st.db.sweeps.head? = some sweep →
       env.tick = some tick →
       env.account = some account →
       env.symbol_info = some info →
       0 < (|entryOf sweep tick - stopOf sweep| / max info.point (1 / 1000000000)) *
           (if info.trade_tick_value = 0 then 1 else info.trade_tick_value) →
       (generate_trade_signal st env).2.db.signals.head?.map (fun s => s.volume) =
         some (sizingVolume
           (account.equity * riskPctOfGrade st.session.asian_range_grade)
           ((|entryOf sweep tick - stopOf sweep| / max info.point (1 / 1000000000)) *
            (if info.trade_tick_value = 0 then 1 else info.trade_tick_value)))) ∧
    (generate_trade_signal c1St c1Env).1.volume = some (25 / 2) ∧
    (∀ account signal,
       1 / 100 ≤ calculate_position_size account signal ∧
       calculate_position_size account signal ≤ 1 / 2) := by
  refine ⟨?_, ?_, ?_⟩
  · intro st env sweep tick account info hstate hsweep htick hacct hinfo hvpl
    exact (generate_signal_volume st env sweep tick account info
      hstate hsweep htick hacct hinfo hvpl).2
  · have h := generate_signal_volume c1St c1Env
      { sweep_direction := .UP, sweep_price := 2003, sweep_threshold := 10 }
      { bid := 2002, ask := 2002.2005 }
      { balance := 10000, equity := 10000 }
      { point := 1/10, trade_tick_value := 1, trade_contract_size := 100 }
      rfl rfl rfl rfl rfl (by rw [c1_value_per_lot]; norm_num)
    rw [c1_value_per_lot] at h
    rw [h.1]
    exact congrArg some c1_code_volume
  · intro account signal
    simp only [calculate_position_size]
    repeat' split
    all_goals refine ⟨?_, ?_⟩ <;> norm_num

/-- Witness for C1 (amended): the Scenario D instantiation of the
stored-volume formula and of the execution-side clamp. -/
theorem C1_amended_sizing_witness :
    (generate_trade_signal c1St c1Env).2.db.signals.head?.map (fun s => s.volume) =
      some (25 / 2) ∧
    1 / 100 ≤ calculate_position_size none none ∧
    calculate_position_size none none ≤ 1 / 2 := by
  have h := C1_amended_sizing.1 c1St c1Env
    { sweep_direction := .UP, sweep_price := 2003, sweep_threshold := 10 }
    { bid := 2002, ask := 2002.2005 }
    { balance := 10000, equity := 10000 }
    { point := 1/10, trade_tick_value := 1, trade_contract_size := 100 }
    rfl rfl rfl rfl rfl (by rw [c1_value_per_lot]; norm_num)
  rw [c1_value_per_lot] at h
  rw [h]
  exact ⟨congrArg some c1_code_volume, (C1_amended_sizing.2.2 none none).1,
         (C1_amended_sizing.2.2 none none).2⟩

/-- `check_confluence` never mutates the session or the rows. -/
theorem check_confluence_state (st : St) (env : Env) :
    (check_confluence st env).2 = st := by
  unfold check_confluence
  split <;> rfl

/-- C2 (amended): for a CONFIRMED session whose confirmation_time is
more than 15 minutes old, `run_strategy_once` never creates a Signal;
and PROVIDED the confluence gate passes, it forces the session to
COOLDOWN with the retest-expiry reason.  (When confluence fails — wide
spread, news blackout, or no tick — the call returns "Confluence
failed" first and the session stays CONFIRMED, because the confluence
guard runs before the window check.) -/
theorem C2_expiry_cooldown (st : St) (env : Env) (ct : ℚ)
    (hstate : st.session.current_state = .CONFIRMED)
    (hct : st.session.confirmation_time = some ct)
    (hexp : env.now - ct > 15) :
    (run_strategy_once st env).2.db.signals = st.db.signals ∧
    ((check_confluence st env).1.success = true →
     (check_confluence st env).1.confluence_passed = true →
     (run_strategy_once st env).2.session.current_state = .COOLDOWN ∧
     (run_strategy_once st env).1.stage = .RETEST ∧
     (run_strategy_once st env).1.reason =
       some "Retest window expired (3 M5 bars). Entering cooldown.") := by
  rcases h1 : check_confluence st env with ⟨conf, st2⟩
  have hst2 : st2 = st := by
    have h := check_confluence_state st env
    rw [h1] at h
    exact h
  subst hst2
  constructor
  · by_cases hp : conf.success = true ∧ conf.confluence_passed = true
    · simp [run_strategy_once, confirmedBranch, hstate, h1, hp, hct, hexp]
    · simp [run_strategy_once, confirmedBranch, hstate, h1, hp]
  · intro hs hpass
    have hs' : conf.success = true := hs
    have hp' : conf.confluence_passed = true := hpass
    simp [run_strategy_once, confirmedBranch, hstate, h1, hs', hp', hct, hexp]

/-- C2 counterexample: a CONFIRMED session 16 minutes past confirmation
is NOT forced to COOLDOWN when the spread gate fails — the run returns
"Confluence failed" and the session stays CONFIRMED, so expiry does not
hold "regardless of price action". -/
theorem C2_counterexample :
    c2St.session.current_state = .CONFIRMED ∧
    c2St.session.confirmation_time = some 0 ∧
    c2EnvFail.now - 0 > 15 ∧
    (run_strategy_once c2St c2EnvFail).2.session.current_state = .CONFIRMED ∧
    (run_strategy_once c2St c2EnvFail).1.reason = some "Confluence failed" := by
  refine ⟨rfl, rfl, by norm_num [c2EnvFail, baseEnv], ?_, ?_⟩ <;>
    norm_num [run_strategy_once, confirmedBranch, check_confluence, bias_of,
              c2St, c2EnvFail, baseSession, baseEnv, emptyDb]

/-- The confluence gate passes in `c2EnvPass` (spread 1 ≤ 2, no news). -/
theorem c2_confluence_passes :
    (check_confluence c2St c2EnvPass).1.success = true ∧
    (check_confluence c2St c2EnvPass).1.confluence_passed = true := by
  constructor <;>
    norm_num [check_confluence, bias_of, c2St, c2EnvPass, baseEnv, baseSession, emptyDb]

/-- Witness for C2 (amended): with the gate passing and the window 16
minutes old, the run forces COOLDOWN, reports expiry, and generates no
signal. -/
theorem C2_expiry_cooldown_witness :
    (run_strategy_once c2St c2EnvPass).2.db.signals = c2St.db.signals ∧
    (run_strategy_once c2St c2EnvPass).2.session.current_state = .COOLDOWN ∧
    (run_strategy_once c2St c2EnvPass).1.stage = .RETEST ∧
    (run_strategy_once c2St c2EnvPass).1.reason =
      some "Retest window expired (3 M5 bars). Entering cooldown." := by
  have h := C2_expiry_cooldown c2St c2EnvPass 0 rfl rfl (by norm_num [c2EnvPass, baseEnv])
  exact ⟨h.1, h.2 c2_confluence_passes.1 c2_confluence_passes.2⟩

/-- `confirm_reversal` from SWEPT only stays SWEPT or reaches CONFIRMED. -/
theorem confirm_reversal_step (st : St) (env : Env)
    (h : st.session.current_state = .SWEPT) :
    (confirm_reversal st env).2.session.current_state = .SWEPT ∨
    (confirm_reversal st env).2.session.current_state = .CONFIRMED := by
  simp only [confirm_reversal]
  repeat' split
  all_goals simp_all

/-- `generate_trade_signal` from CONFIRMED only stays CONFIRMED or
reaches ARMED. -/
theorem generate_trade_signal_step (st : St) (env : Env)
    (h : st.session.current_state = .CONFIRMED) :
    (generate_trade_signal st env).2.session.current_state = .CONFIRMED ∨
    (generate_trade_signal st env).2.session.current_state = .ARMED := by
  simp only [generate_trade_signal]
  repeat' split
  all_goals simp_all

/-- `manage_in_trade` from IN_TRADE only stays IN_TRADE or reaches
COOLDOWN. -/
theorem manage_in_trade_step (st : St) (env : Env)
    (h : st.session.current_state = .IN_TRADE) :
    (manage_in_trade st env).2.session.current_state = .IN_TRADE ∨
    (manage_in_trade st env).2.session.current_state = .COOLDOWN := by
  simp only [manage_in_trade]
  repeat' split
  all_goals simp_all

/-- C5 (amended): the one-step safety holds for the individual service
operations — `confirm_reversal` from SWEPT reaches only {SWEPT,
CONFIRMED}, `generate_trade_signal` from CONFIRMED only {CONFIRMED,
ARMED}, and from IN_TRADE both `manage_in_trade` and a full
`run_strategy_once` pass reach only {IN_TRADE, COOLDOWN} — but a single
`run_strategy_once` call is a pipeline that chains these stages, so
from SWEPT it can run all the way to IN_TRADE (see the
counterexample). -/
theorem C5_step_safety :
    (∀ st env, st.session.current_state = .SWEPT →
       (confirm_reversal st env).2.session.current_state = .SWEPT ∨
       (confirm_reversal st env).2.session.current_state = .CONFIRMED) ∧
    (∀ st env, st.session.current_state = .CONFIRMED →
       (generate_trade_signal st env).2.session.current_state = .CONFIRMED ∨
       (generate_trade_signal st env).2.session.current_state = .ARMED) ∧
    (∀ st env, st.session.current_state = .IN_TRADE →
       (manage_in_trade st env).2.session.current_state = .IN_TRADE ∨
       (manage_in_trade st env).2.session.current_state = .COOLDOWN) ∧
    (∀ st env, st.session.current_state = .IN_TRADE →
       (run_strategy_once st env).2.session.current_state = .IN_TRADE ∨
       (run_strategy_once st env).2.session.current_state = .COOLDOWN) := by
  refine ⟨confirm_reversal_step, generate_trade_signal_step, manage_in_trade_step, ?_⟩
  intro st env h
  have h3 := manage_in_trade_step st env h
  rcases hm : manage_in_trade st env with ⟨tm, st1⟩
  rw [hm] at h3
  simpa [run_strategy_once, h, hm] using h3

/-- Witness for C5 (amended): the SWEPT, CONFIRMED and IN_TRADE
fixtures instantiate each of the four safety statements. -/
theorem C5_step_safety_witness :
    ((confirm_reversal c3St baseEnv).2.session.current_state = .SWEPT ∨
     (confirm_reversal c3St baseEnv).2.session.current_state = .CONFIRMED) ∧
    ((generate_trade_signal c1St c1Env).2.session.current_state = .CONFIRMED ∨
     (generate_trade_signal c1St c1Env).2.session.current_state = .ARMED) ∧
    ((manage_in_trade c6St c6Env).2.session.current_state = .IN_TRADE ∨
     (manage_in_trade c6St c6Env).2.session.current_state = .COOLDOWN) ∧
    ((run_strategy_once c6St c6Env).2.session.current_state = .IN_TRADE ∨
     (run_strategy_once c6St c6Env).2.session.current_state = .COOLDOWN) :=
  ⟨C5_step_safety.1 c3St baseEnv rfl,
   C5_step_safety.2.1 c1St c1Env rfl,
   C5_step_safety.2.2.1 c6St c6Env rfl,
   C5_step_safety.2.2.2 c6St c6Env rfl⟩

/-- C5 counterexample: one `run_strategy_once` call starting in SWEPT
ends in IN_TRADE — it confirms, passes confluence and the retest,
generates the signal, and executes the order within the single call —
so the claimed one-call reachable set {CONFIRMED, COOLDOWN, SWEPT} is
wrong for the call the state machine actually runs. -/
theorem C5_counterexample :
    c3St.session.current_state = .SWEPT ∧
    (run_strategy_once c3St c5Env).2.session.current_state = .IN_TRADE ∧
    SessionState.IN_TRADE ≠ .SWEPT ∧
    SessionState.IN_TRADE ≠ .CONFIRMED ∧
    SessionState.IN_TRADE ≠ .COOLDOWN := by
  refine ⟨rfl, ?_, by decide, by decide, by decide⟩
  have habs : |(31701 : ℚ) / 2000| = 31701 / 2000 := abs_of_pos (by norm_num)
  norm_num [habs, run_strategy_once, sweptBranch, confirmedBranch, retestAndSignal,
            armedBranch, confirm_reversal, check_confluence, generate_trade_signal,
            execute_trade, manage_in_trade, calculate_atr, bias_of, entryOf, stopOf,
            sizingVolume, roundTo, round_eq, riskPctOfGrade,
            c3St, c5Env, baseSession, emptyDb, confirmBar]

end SweepTrader
